import Mathlib

/-!
Shallow embedding of the audio-source acquisition and session-supervision
engine of `src/Audio/server.py` (the WebRTC audio server), together with
theorems settling the claims of the specification against it.

External effects (subprocess spawning and results, ALSA device opening,
JSON parsing, SDP validation) are modelled as explicit environment
parameters; Python exceptions are modelled with `Except`/`Option` so that
each `try`/`except` of the source appears as an explicit alternative.
-/

namespace AudioServer

/-- A Python exception, identified by its message. -/
inductive PyErr
  | exc (msg : String)
deriving DecidableEq

/-- A media track handed to `pc.addTrack`.  `player src` is the `.audio`
track of a `MediaPlayer` (always distinct from the silence fallback);
`silence` is a fresh `SilenceAudioTrack()`. -/
inductive Track
  | silence
  | player (src : String)
deriving DecidableEq

/-- Whether a track came from a real `MediaPlayer` (i.e. is not the silence fallback). -/
def Track.isPlayer : Track → Bool
  | .silence => false
  | .player _ => true

/-! ## get_available_audio_devices (server.py lines 19-42) -/

/-- Result of a completed `subprocess.run` call: return code and the lines of
captured standard output (the source splits `result.stdout` on newlines). -/
structure CmdResult where
  returncode : Int
  stdout : List String
deriving DecidableEq

/-- Python's substring test `sub in line` for a non-empty pattern:
`line.splitOn sub` has at least two pieces exactly when `sub` occurs in `line`. -/
def pyContains (line sub : String) : Bool := 2 ≤ (line.splitOn sub).length

/-- The filter applied to each output line: `'card' in line and 'device' in line`. -/
def deviceLineOk (line : String) : Bool := pyContains line "card" && pyContains line "device"

/-- Embedding of `get_available_audio_devices`.  Each of the two external
queries (`aplay -l`, `arecord -l`) either returns a `CmdResult` or raises; a
raise is caught by the surrounding `except`, which only prints.  The result
type is `Except` to make visible that the function itself never raises. -/
def get_available_audio_devices (aplayRes arecordRes : Except PyErr CmdResult) :
    Except PyErr (List String) :=
  let devices : List String :=
    match aplayRes with
    | .ok r =>
        if r.returncode = 0 then
          (r.stdout.filter deviceLineOk).map (fun l => l.trim)
        else []
    | .error _ => []
  let devices : List String :=
    match arecordRes with
    | .ok r =>
        if r.returncode = 0 then
          devices ++ (r.stdout.filter deviceLineOk).map (fun l => "MIC: " ++ l.trim)
        else devices
    | .error _ => devices
  Except.ok devices

/-- An external device query "fails" when the invocation raises or exits nonzero. -/
def queryFailed (r : Except PyErr CmdResult) : Prop :=
  match r with
  | .ok c => c.returncode ≠ 0
  | .error _ => True

instance (r : Except PyErr CmdResult) : Decidable (queryFailed r) := by
  unfold queryFailed
  match r with
  | .ok c => exact inferInstanceAs (Decidable (c.returncode ≠ 0))
  | .error _ => exact inferInstanceAs (Decidable True)

/-! ## SilenceAudioTrack (server.py lines 44-58) -/

/-- An `av.AudioFrame` as configured by `SilenceAudioTrack.recv`: sample
format, channel layout, sample count, raw byte payload, presentation
timestamp, sample rate, and time base. -/
structure AudioFrameM where
  format : String
  layout : String
  samples : Nat
  payload : List Nat
  pts : Nat
  sample_rate : Nat
  time_base : Rat
deriving DecidableEq

/-- Per-producer state of the silence track: how many frames have been
delivered so far (the library timestamp helper's internal counter). -/
structure SilenceTrackState where
  frameCount : Nat
deriving DecidableEq

/-- Modelled from the spec: `self.next_timestamp()` called by
`SilenceAudioTrack.recv` is a helper of the media library (aiortc), not code
of this repository.  Per the spec it yields a presentation timestamp that
starts at a per-producer monotonic base and advances by 960 sample-ticks per
frame, with time base 1/48000. -/
def next_timestamp (s : SilenceTrackState) : (Nat × Rat) × SilenceTrackState :=
  ((s.frameCount * 960, (1 : Rat) / 48000), ⟨s.frameCount + 1⟩)

/-- Embedding of `SilenceAudioTrack.recv`: a 960-sample mono `s16` frame
whose planes are overwritten with zero bytes (`bytes(plane.buffer_size)`,
1920 bytes for 960 16-bit mono samples), stamped by `next_timestamp`, at
sample rate 48000. -/
def SilenceAudioTrack.recv (s : SilenceTrackState) : AudioFrameM × SilenceTrackState :=
  let samples := 960
  let payload := List.replicate (samples * 2) 0
  let tn := next_timestamp s
  ({ format := "s16", layout := "mono", samples := samples, payload := payload,
     pts := tn.1.1, sample_rate := 48000, time_base := tn.1.2 }, tn.2)

/-- State of the silence producer after `k` calls to `recv`, starting fresh. -/
def silenceStateAfter : Nat → SilenceTrackState
  | 0 => ⟨0⟩
  | k + 1 => (SilenceAudioTrack.recv (silenceStateAfter k)).2

/-- The `k`-th frame (k ≥ 0) delivered by repeated `recv` calls on one
silence producer. -/
def silenceFrameSeq (k : Nat) : AudioFrameM := (SilenceAudioTrack.recv (silenceStateAfter k)).1

/-! ## AudioRestartManager (server.py lines 60-73) -/

/-- The restart-policy state: attempt counter, maximum attempts, fixed
inter-attempt delay in seconds. -/
structure AudioRestartManager where
  restart_count : Nat
  max_restarts : Nat
  restart_delay : Rat
deriving DecidableEq

/-- The module-level `AudioRestartManager()` instance: counter 0, maximum 3,
delay 2.0 seconds. -/
def AudioRestartManager.init : AudioRestartManager :=
  { restart_count := 0, max_restarts := 3, restart_delay := 2 }

/-- Embedding of `should_restart`.  The first output component is the
returned boolean, the second the total time slept during the call (the
`asyncio.sleep(self.restart_delay)` suspension), and the final component the
updated manager state. -/
def should_restart (m : AudioRestartManager) : (Bool × Rat) × AudioRestartManager :=
  if m.max_restarts ≤ m.restart_count then ((false, 0), m)
  else ((true, m.restart_delay), { m with restart_count := m.restart_count + 1 })

/-- Manager state after `k` calls to `should_restart` starting from the
module-level instance. -/
def restartStateAfter : Nat → AudioRestartManager
  | 0 => AudioRestartManager.init
  | k + 1 => (should_restart (restartStateAfter k)).2

/-- Observable outcome (returned boolean, time slept) of the `k`-th call. -/
def restartAnswer (k : Nat) : Bool × Rat := (should_restart (restartStateAfter k)).1

/-! ## The world state: processes, connections, registry

External processes and `RTCPeerConnection` objects live in a `World` record
threaded through the stateful operations.  Each spawned process gets a fresh
identity (`pid`), so the per-process `Popen` state (`returncode`,
delivered signals) is tracked in a global list. -/

/-- A spawned external process as seen through its `subprocess.Popen` handle:
command line, where its standard input comes from (`none`: inherited from the
parent — the source never wires one process into another), whether stdout is
a pipe, the reaped return code (`none` while not reaped), and how many
termination signals have actually been delivered to it. -/
structure Proc where
  pid : Nat
  cmd : List String
  stdinSrc : Option Nat
  stdoutPipe : Bool
  returncode : Option Int
  sigterms : Nat
deriving DecidableEq

/-- `Popen.terminate` (i.e. `send_signal(SIGTERM)`): the signal is delivered
only when the process has not already been reaped (`returncode is None`);
on an already-reaped process it does nothing. -/
def Proc.terminate (p : Proc) : Proc :=
  match p.returncode with
  | some _ => p
  | none => { p with sigterms := p.sigterms + 1 }

/-- `Popen.wait` immediately after a terminate: returns once the process has
exited and records the return code (a SIGTERMed process reports -15);
a no-op when the code is already recorded. -/
def Proc.wait (p : Proc) : Proc :=
  match p.returncode with
  | some _ => p
  | none => { p with returncode := some (-15) }

/-- The fields of an `RTCPeerConnection` the server reads or writes:
identity, ICE connection state, connection state, whether `close()` has run,
and the `proc_arecord` / `proc_ffmpeg` attributes (absent until a strategy
sets them — `hasattr` is `Option.isSome`). -/
structure PC where
  pcId : Nat
  iceConnectionState : String
  connectionState : String
  closed : Bool
  proc_arecord : Option Nat
  proc_ffmpeg : Option Nat
deriving DecidableEq

/-- Global server state: every spawned process with its current `Popen`
state, the module-level `pcs` registry (ids), every connection object with
its current state, the asyncio tasks successfully created, the parent-side
file descriptors explicitly closed (the source never closes one), and
fresh-identity counters. -/
structure World where
  procs : List Proc
  pcs : List Nat
  conns : List PC
  tasks : List String
  closedFds : List Nat
  nextPid : Nat
  nextPcId : Nat
deriving DecidableEq

/-- Look up a connection object by identity. -/
def World.getPC (w : World) (pcId : Nat) : Option PC :=
  w.conns.find? (fun c => c.pcId == pcId)

/-- Update the connection object with the given identity in place. -/
def World.updPC (w : World) (pcId : Nat) (f : PC → PC) : World :=
  { w with conns := w.conns.map (fun c => if c.pcId == pcId then f c else c) }

/-- Look up a process by identity. -/
def World.getProc (w : World) (pid : Nat) : Option Proc :=
  w.procs.find? (fun p => p.pid == pid)

/-! ## The three capture strategies (server.py lines 82-141) -/

/-- Embedding of `try_alsa_default`: `MediaPlayer("default", format="alsa")`
either raises (environment outcome `.error`, swallowed by the bare `except`,
yielding `None`) or produces a player whose `.audio` track is returned.  The
body touches no shared state, so the world is passed through unchanged. -/
def try_alsa_default (res : Except PyErr String) (w : World) : World × Option Track :=
  match res with
  | .ok src => (w, some (Track.player src))
  | .error _ => (w, none)

/-- Options dict passed by `try_alsa_hw` to `MediaPlayer("plughw:2,0", ...)`. -/
def alsa_hw_options : List (String × String) :=
  [("format", "s16le"), ("rate", "48000"), ("channels", "2")]

/-- Embedding of `try_alsa_hw`: like `try_alsa_default` but opening
`plughw:2,0` with `alsa_hw_options`; failures are swallowed, no shared state
is touched. -/
def try_alsa_hw (res : Except PyErr String) (w : World) : World × Option Track :=
  match res with
  | .ok src => (w, some (Track.player src))
  | .error _ => (w, none)

/-- The exact command line `cmd_ffmpeg` spawned by `try_subprocess`
(server.py lines 107-114): a single ffmpeg process that captures from the
ALSA device `hw:2,0` and resamples/downmixes to mono 48 kHz s16le on its
standard output. -/
def cmd_ffmpeg : List String :=
  ["ffmpeg", "-f", "alsa", "-i", "hw:2,0", "-ar", "48000", "-ac", "1", "-f", "s16le",
   "-fflags", "nobuffer", "-flags", "low_delay", "-bufsize", "1000", "pipe:1"]

/-- Environment outcomes of the fallible operations inside `try_subprocess`:
whether `subprocess.Popen` succeeds, whether `asyncio.create_task` raises
(`create_task` requires a running event loop in the calling thread; the
strategies run on `ThreadPoolExecutor` worker threads, which have none, so
in this program it raises `RuntimeError`), and whether building the
`MediaPlayer` on the pipe succeeds. -/
structure SubprocEnv where
  popenOk : Bool
  createTaskRaises : Bool
  mediaPlayerOk : Bool
deriving DecidableEq

/-- Embedding of `try_subprocess` acting on behalf of connection `pcId`.
In source order: spawn ffmpeg with `stdout=PIPE` (a raise is caught,
yielding `None`); store the handle on the connection (`pc.proc_ffmpeg = ...`);
call `asyncio.create_task(monitor_subprocesses(pc))` (a raise is caught by
the same `except`, but the spawn and the attribute write already happened
and persist); build the `MediaPlayer` on `proc_ffmpeg.stdout`; return its
`.audio` track. -/
def try_subprocess (env : SubprocEnv) (pcId : Nat) (w : World) : World × Option Track :=
  if !env.popenOk then (w, none)
  else
    let pid := w.nextPid
    let proc : Proc := { pid := pid, cmd := cmd_ffmpeg, stdinSrc := none,
                         stdoutPipe := true, returncode := none, sigterms := 0 }
    let w1 : World := { w with procs := w.procs ++ [proc], nextPid := pid + 1 }
    let w2 := w1.updPC pcId (fun pc => { pc with proc_ffmpeg := some pid })
    if env.createTaskRaises then (w2, none)
    else
      let w3 : World := { w2 with tasks := w2.tasks ++ ["monitor_subprocesses"] }
      if !env.mediaPlayerOk then (w3, none)
      else (w3, some (Track.player "subprocess_ffmpeg"))

/-! ## get_audio_track (server.py lines 142-157) -/

/-- The `concurrent.futures.as_completed` race: the first future whose
result is not `None` wins; if every result is `None` the fallback
`SilenceAudioTrack()` is returned.  The input list is the futures' results
in completion order. -/
def raceFirst : List (Option Track) → Track
  | [] => .silence
  | some t :: _ => t
  | none :: rest => raceFirst rest

/-- Result of strategy `i` when run from the shared initial world (the three
strategies are submitted concurrently to the executor from the same state;
only `try_subprocess` mutates shared state). -/
def strategyResult (e1 e2 : Except PyErr String) (e3 : SubprocEnv) (pcId : Nat)
    (w : World) : Fin 3 → Option Track
  | 0 => (try_alsa_default e1 w).2
  | 1 => (try_alsa_hw e2 w).2
  | 2 => (try_subprocess e3 pcId w).2

/-- Embedding of `get_audio_track`.  `order` is the order in which the three
futures complete (`as_completed` yields each exactly once).  The `with`
block waits for all futures before returning, so the side effects of
`try_subprocess` (the only strategy that mutates shared state) are in the
final world whether or not it wins. -/
def get_audio_track (e1 e2 : Except PyErr String) (e3 : SubprocEnv)
    (order : List (Fin 3)) (pcId : Nat) (w : World) : World × Track :=
  let wAll := (try_subprocess e3 pcId w).1
  (wAll, raceFirst (order.map (strategyResult e1 e2 e3 pcId w)))

/-! ## monitor_subprocesses (server.py lines 159-178) -/

/-- How one iteration of the monitor loop ends: `returned` when the body
executes one of its `return` statements, `looped` when it falls through to
the next 1-second sleep. -/
inductive MonitorResult
  | returned
  | looped
deriving DecidableEq

/-- `pc.close()` on server.py lines 167 and 173 is written without `await`:
calling the coroutine function merely builds a coroutine object, and the
handler discards it without awaiting or scheduling it, so the body of
`close` never runs and the world is unchanged. -/
def close_unawaited (w : World) : World := w

/-- Whether the given process attribute refers to a process that has exited
(`poll() is not None`); an absent attribute fails the `hasattr` guard. -/
def procExited (w : World) (pidO : Option Nat) : Bool :=
  match pidO with
  | none => false
  | some pid =>
    match w.getProc pid with
    | some p => p.returncode.isSome
    | none => false

/-- Embedding of one iteration of the `monitor_subprocesses` loop body for
connection `pcId` (what runs after each 1-second sleep): check
`proc_arecord`, then `proc_ffmpeg`; on a dead process print and call
`pc.close()` without awaiting it, then return; otherwise return when the
connection state is terminal, else loop. -/
def monitorStep (pcId : Nat) (w : World) : World × MonitorResult :=
  match w.getPC pcId with
  | none => (w, .looped)
  | some pc =>
    if procExited w pc.proc_arecord then (close_unawaited w, .returned)
    else if procExited w pc.proc_ffmpeg then (close_unawaited w, .returned)
    else if pc.connectionState == "closed" || pc.connectionState == "failed" then
      (w, .returned)
    else (w, .looped)

/-! ## on_ice_state_change (server.py lines 198-210) and cleanup (228-237) -/

/-- Effect of `proc.terminate(); proc.wait()` on the process with identity
`pid`, applied pointwise to the process table. -/
def twf (pid : Nat) (q : Proc) : Proc :=
  if q.pid == pid then Proc.wait (Proc.terminate q) else q

/-- `twf` lifted to the optional attribute: a missing attribute does nothing. -/
def twOf (pidO : Option Nat) (q : Proc) : Proc :=
  match pidO with
  | none => q
  | some pid => twf pid q

/-- `proc.terminate(); proc.wait()` applied to the process the given
attribute refers to; a missing attribute (`hasattr` false) does nothing. -/
def World.termWait (w : World) (pidO : Option Nat) : World :=
  match pidO with
  | none => w
  | some pid => { w with procs := w.procs.map (twf pid) }

/-- Effect of `pc.close()` on the connection object: the connection reaches
its terminal closed state.  A second call on an already-closed connection is
a no-op (the library returns early), which this assignment-only update
reflects. -/
def closeFn (c : PC) : PC :=
  { c with closed := true, connectionState := "closed", iceConnectionState := "closed" }

/-- `await pc.close()` lifted to the world. -/
def await_pc_close (w : World) (pcId : Nat) : World :=
  w.updPC pcId closeFn

/-- Embedding of the `on_ice_state_change` handler for connection `pcId`,
invoked with the connection's current ICE state: in a terminal state it
terminates and waits on `proc_arecord` then `proc_ffmpeg` (when the
attributes are set), awaits `pc.close()`, and discards the connection from
the `pcs` registry; otherwise it only logs. -/
def on_ice_state_change (pcId : Nat) (w : World) : World :=
  match w.getPC pcId with
  | none => w
  | some pc =>
    if pc.iceConnectionState == "failed" || pc.iceConnectionState == "closed" then
      let w1 := w.termWait pc.proc_arecord
      let w2 := w1.termWait pc.proc_ffmpeg
      let w3 := await_pc_close w2 pcId
      { w3 with pcs := w3.pcs.filter (fun i => !(i == pcId)) }
    else w

/-- Embedding of the shutdown hook `cleanup` for a single registered
connection: the same terminate/wait pair followed by `await pc.close()`
(the registry is not touched there). -/
def cleanup_one (pcId : Nat) (w : World) : World :=
  match w.getPC pcId with
  | none => w
  | some pc =>
    let w1 := w.termWait pc.proc_arecord
    let w2 := w1.termWait pc.proc_ffmpeg
    await_pc_close w2 pcId

/-! ## offer (server.py lines 183-226) -/

/-- The request body of a POST to `/offer`: either not JSON at all
(`request.json()` raises) or a JSON object with optional `sdp` and `type`
fields. -/
inductive Payload
  | badJson
  | fields (sdp : Option String) (ty : Option String)
deriving DecidableEq

/-- The session-description types accepted by the `RTCSessionDescription`
constructor's validator. -/
def validSdpTypes : List String := ["offer", "pranswer", "answer", "rollback"]

deriving instance DecidableEq for Except

/-- Environment for one `offer` request: outcomes of the three strategies,
the completion order of their futures, and whether `setRemoteDescription`
accepts the offered SDP text. -/
structure OfferEnv where
  e1 : Except PyErr String
  e2 : Except PyErr String
  e3 : SubprocEnv
  order : List (Fin 3)
  sdpParses : Bool
deriving DecidableEq

/-- Outcome of the `offer` handler: a JSON answer, or an exception escaping
the handler (aiohttp then reports a 500 without running any more of it). -/
inductive OfferResult
  | response (sdp ty : String)
  | raised (e : PyErr)
deriving DecidableEq

/-- Embedding of the `offer` handler for a non-OPTIONS request, in source
order: parse JSON (raises on a bad body); read `params["sdp"]` then
`params["type"]` (KeyError on a missing field); construct
`RTCSessionDescription` (its validator rejects an unknown type); create the
`RTCPeerConnection` and add it to `pcs`; run `get_audio_track` (which may
spawn a process); `setRemoteDescription` (raises on unparsable SDP — note
the session and any spawned process already exist at that point); answer. -/
def offer (env : OfferEnv) (payload : Payload) (w : World) : OfferResult × World :=
  match payload with
  | .badJson => (.raised (.exc "JSONDecodeError"), w)
  | .fields sdpO tyO =>
    match sdpO with
    | none => (.raised (.exc "KeyError: sdp"), w)
    | some _sdp =>
      match tyO with
      | none => (.raised (.exc "KeyError: type"), w)
      | some ty =>
        if !(validSdpTypes.contains ty) then
          (.raised (.exc "ValueError: RTCSessionDescription type"), w)
        else
          let pcId := w.nextPcId
          let pc : PC :=
            { pcId := pcId, iceConnectionState := "new", connectionState := "new",
              closed := false, proc_arecord := none, proc_ffmpeg := none }
          let w1 : World :=
            { w with conns := w.conns ++ [pc], pcs := w.pcs ++ [pcId], nextPcId := pcId + 1 }
          let wt := get_audio_track env.e1 env.e2 env.e3 env.order pcId w1
          if !env.sdpParses then (.raised (.exc "setRemoteDescription"), wt.1)
          else (.response "answer-sdp" "answer", wt.1)

/-! ## Concrete worlds used by witnesses and counterexamples -/

/-- The empty initial world (server just started, registry empty). -/
def emptyWorld : World :=
  { procs := [], pcs := [], conns := [], tasks := [], closedFds := [],
    nextPid := 0, nextPcId := 0 }

/-- A world holding one fresh registered connection (identity 0), as right
after `pcs.add(pc)` in `offer`. -/
def worldOnePC : World :=
  { procs := [],
    pcs := [0],
    conns := [{ pcId := 0, iceConnectionState := "new", connectionState := "new",
                closed := false, proc_arecord := none, proc_ffmpeg := none }],
    tasks := [], closedFds := [], nextPid := 0, nextPcId := 1 }

/-! ## Theorems: silence producer (C6) -/

lemma silenceStateAfter_eq (k : Nat) : silenceStateAfter k = ⟨k⟩ := by
  induction k with
  | zero => rfl
  | succ n ih =>
    rw [silenceStateAfter, ih]
    rfl

/-- C6: every frame `k` (k ≥ 0) delivered by repeated `recv` calls on the
silence producer has exactly 960 samples, mono layout, a 16-bit all-zero
payload (1920 zero bytes), sample rate 48000, time base 1/48000 and
presentation timestamp `k * 960` sample-ticks; the sequence is a total
function of `k` (never ends, never fails) and its timestamps strictly
advance, so it never restarts from a prior position. -/
theorem silence_frame_spec (k : Nat) :
    (silenceFrameSeq k).samples = 960 ∧
    (silenceFrameSeq k).layout = "mono" ∧
    (silenceFrameSeq k).format = "s16" ∧
    (silenceFrameSeq k).payload = List.replicate 1920 0 ∧
    (silenceFrameSeq k).sample_rate = 48000 ∧
    (silenceFrameSeq k).pts = k * 960 ∧
    (silenceFrameSeq k).time_base = 1 / 48000 ∧
    (silenceFrameSeq k).pts < (silenceFrameSeq (k + 1)).pts := by
  have hs : silenceFrameSeq k = (SilenceAudioTrack.recv ⟨k⟩).1 := by
    rw [silenceFrameSeq, silenceStateAfter_eq]
  have hs1 : silenceFrameSeq (k + 1) = (SilenceAudioTrack.recv ⟨k + 1⟩).1 := by
    rw [silenceFrameSeq, silenceStateAfter_eq]
  rw [hs, hs1]
  refine ⟨rfl, rfl, rfl, rfl, rfl, rfl, rfl, ?_⟩
  show k * 960 < (k + 1) * 960
  omega

/-! ## Theorems: restart policy (C8) -/

lemma restartStateAfter_eq (k : Nat) : restartStateAfter k = ⟨min k 3, 3, 2⟩ := by
  induction k with
  | zero => simp [restartStateAfter, AudioRestartManager.init]
  | succ n ih =>
    rw [restartStateAfter, ih]
    by_cases h : n < 3
    · have h3 : ¬ (3 ≤ min n 3) := by omega
      simp [should_restart, h3, AudioRestartManager.mk.injEq]
      omega
    · have h3 : 3 ≤ min n 3 := by omega
      simp [should_restart, h3, AudioRestartManager.mk.injEq]
      omega

/-- C8: `should_restart` on a manager below its maximum increments the
counter, sleeps the fixed `restart_delay`, and returns `True` (the counter
is then still within the maximum); at or past the maximum it immediately
returns `False` with no sleep and no counter change; from the module-level
instance (counter 0, maximum 3, delay 2.0 s), calls 0,1,2 answer
`(True, 2s sleep)` and every later call answers `(False, no sleep)`. -/
theorem should_restart_spec :
    (∀ m : AudioRestartManager, m.restart_count < m.max_restarts →
      should_restart m =
        ((true, m.restart_delay), { m with restart_count := m.restart_count + 1 })) ∧
    (∀ m : AudioRestartManager, m.max_restarts ≤ m.restart_count →
      should_restart m = ((false, 0), m)) ∧
    (∀ k : Nat, restartAnswer k = if k < 3 then (true, 2) else (false, 0)) := by
  refine ⟨?_, ?_, ?_⟩
  · intro m h
    have h' : ¬ m.max_restarts ≤ m.restart_count := by omega
    simp [should_restart, h']
  · intro m h
    simp [should_restart, h]
  · intro k
    rw [restartAnswer, restartStateAfter_eq]
    by_cases h : k < 3
    · have h3 : ¬ ((3 : Nat) ≤ min k 3) := by omega
      simp [should_restart, h3, h]
    · have h3 : (3 : Nat) ≤ min k 3 := by omega
      simp [should_restart, h3, h]

/-- Witness for C8 at the module-level instance: the first call increments
0 to 1, sleeps 2 seconds and answers true. -/
theorem should_restart_spec_witness :
    should_restart AudioRestartManager.init =
      ((true, 2), { restart_count := 1, max_restarts := 3, restart_delay := 2 }) := by
  have h := should_restart_spec.1 AudioRestartManager.init (by decide)
  simpa [AudioRestartManager.init] using h

/-! ## Theorems: device enumeration (C10) -/

/-- C10: `get_available_audio_devices` is total at its interface: for every
environment outcome of the two external queries it returns `ok` with a list
of device lines (the surrounding `except` blocks turn every raise into
normal control flow), and when both queries fail — by raising or exiting
nonzero — the list is empty. -/
theorem get_available_audio_devices_total :
    (∀ a b : Except PyErr CmdResult, ∃ l : List String,
        get_available_audio_devices a b = Except.ok l) ∧
    (∀ a b : Except PyErr CmdResult, queryFailed a → queryFailed b →
        get_available_audio_devices a b = Except.ok []) := by
  constructor
  · intro a b
    exact ⟨_, rfl⟩
  · intro a b ha hb
    unfold queryFailed at ha hb
    cases a <;> cases b <;> simp_all [get_available_audio_devices]

/-- Witness for C10: `aplay` raising and `arecord` exiting nonzero yields
the empty list without an error. -/
theorem get_available_audio_devices_total_witness :
    get_available_audio_devices (Except.error (PyErr.exc "aplay missing"))
      (Except.ok { returncode := 1, stdout := ["card 0: device 0"] }) = Except.ok [] :=
  get_available_audio_devices_total.2 _ _ (by decide) (by decide)

/-! ## Theorems: acquisition race (C1, C5) -/

lemma raceFirst_all_none (rs : List (Option Track)) (h : ∀ x ∈ rs, x = none) :
    raceFirst rs = Track.silence := by
  induction rs with
  | nil => rfl
  | cons x xs ih =>
    have hx := h x (List.mem_cons_self x xs)
    subst hx
    simp only [raceFirst]
    exact ih (fun y hy => h y (List.mem_cons_of_mem _ hy))

/-- C1: when every registered strategy yields no result the acquisition race
returns the silence fallback — for any number of racers (`raceFirst`, first
conjunct) and for the three concrete strategies under any completion order
(second conjunct); and each strategy swallows its own failures, turning an
internal raise (device unavailable for the ALSA probes; spawn failure,
task-creation failure or player failure for the pipeline probe) into `None`
rather than propagating it (remaining conjuncts).  The result type of
`get_audio_track` carries no error alternative: total failure degrades to
silence, never to a raise. -/
theorem acquire_total_failure_silence :
    (∀ rs : List (Option Track), (∀ x ∈ rs, x = none) → raceFirst rs = Track.silence) ∧
    (∀ (e1 e2 : Except PyErr String) (e3 : SubprocEnv) (order : List (Fin 3))
        (pcId : Nat) (w : World),
      strategyResult e1 e2 e3 pcId w 0 = none →
      strategyResult e1 e2 e3 pcId w 1 = none →
      strategyResult e1 e2 e3 pcId w 2 = none →
      (get_audio_track e1 e2 e3 order pcId w).2 = Track.silence) ∧
    (∀ (err : PyErr) (w : World), try_alsa_default (Except.error err) w = (w, none)) ∧
    (∀ (err : PyErr) (w : World), try_alsa_hw (Except.error err) w = (w, none)) ∧
    (∀ (env : SubprocEnv) (pcId : Nat) (w : World),
      env.popenOk = false ∨ env.createTaskRaises = true ∨ env.mediaPlayerOk = false →
      (try_subprocess env pcId w).2 = none) := by
  refine ⟨raceFirst_all_none, ?_, ?_, ?_, ?_⟩
  · intro e1 e2 e3 order pcId w h0 h1 h2
    apply raceFirst_all_none
    intro x hx
    obtain ⟨i, hi, rfl⟩ := List.mem_map.1 hx
    fin_cases i <;> assumption
  · intro err w
    rfl
  · intro err w
    rfl
  · intro env pcId w h
    rcases h with h | h | h
    · simp [try_subprocess, h]
    · cases hp : env.popenOk <;> simp [try_subprocess, hp, h]
    · cases hp : env.popenOk <;> cases hc : env.createTaskRaises <;>
        simp [try_subprocess, hp, hc, h]

/-- Witness for C1: all three strategies fail (ALSA probes raise, the
pipeline spawn fails) and acquisition returns the silence track. -/
theorem acquire_total_failure_silence_witness :
    (get_audio_track (Except.error (PyErr.exc "dev")) (Except.error (PyErr.exc "dev"))
      { popenOk := false, createTaskRaises := true, mediaPlayerOk := false }
      [0, 1, 2] 0 worldOnePC).2 = Track.silence :=
  acquire_total_failure_silence.2.1 _ _ _ _ _ _ rfl rfl rfl

lemma raceFirst_eq_head (rs : List (Option Track)) (t : Track) (rest : List Track)
    (h : rs.filterMap id = t :: rest) : raceFirst rs = t := by
  induction rs with
  | nil => simp at h
  | cons x xs ih =>
    cases x with
    | none =>
      have hstep : List.filterMap id (none :: xs) = List.filterMap id xs := rfl
      rw [hstep] at h
      simp only [raceFirst]
      exact ih h
    | some a =>
      have hstep : List.filterMap id (some a :: xs) = a :: List.filterMap id xs := rfl
      rw [hstep] at h
      cases h
      rfl

lemma try_alsa_default_player (e : Except PyErr String) (w : World) (t : Track)
    (h : (try_alsa_default e w).2 = some t) : t.isPlayer = true := by
  cases e with
  | ok s =>
    have h' : some (Track.player s) = some t := h
    injection h' with h2
    rw [← h2]
    rfl
  | error e => exact absurd h (by simp [try_alsa_default])

lemma try_alsa_hw_player (e : Except PyErr String) (w : World) (t : Track)
    (h : (try_alsa_hw e w).2 = some t) : t.isPlayer = true := by
  cases e with
  | ok s =>
    have h' : some (Track.player s) = some t := h
    injection h' with h2
    rw [← h2]
    rfl
  | error e => exact absurd h (by simp [try_alsa_hw])

lemma try_subprocess_player (env : SubprocEnv) (pcId : Nat) (w : World) (t : Track)
    (h : (try_subprocess env pcId w).2 = some t) : t.isPlayer = true := by
  cases hp : env.popenOk <;> cases hc : env.createTaskRaises <;>
    cases hm : env.mediaPlayerOk <;> simp [try_subprocess, hp, hc, hm] at h
  subst h
  rfl

lemma strategyResult_player (e1 e2 : Except PyErr String) (e3 : SubprocEnv) (pcId : Nat)
    (w : World) (i : Fin 3) (t : Track)
    (h : strategyResult e1 e2 e3 pcId w i = some t) : t.isPlayer = true := by
  fin_cases i
  · exact try_alsa_default_player e1 w t h
  · exact try_alsa_hw_player e2 w t h
  · exact try_subprocess_player e3 pcId w t h

/-- C5: whenever at least one strategy completes with a non-empty result,
`get_audio_track` returns the producer of the first strategy to do so in
completion order — stated for every outcome of the other strategies and
every completion order `order` — and that producer is a real player track,
never the silence fallback. -/
theorem acquire_first_nonempty_wins (e1 e2 : Except PyErr String) (e3 : SubprocEnv)
    (order : List (Fin 3)) (pcId : Nat) (w : World) (t : Track) (rest : List Track)
    (h : (order.map (strategyResult e1 e2 e3 pcId w)).filterMap id = t :: rest) :
    (get_audio_track e1 e2 e3 order pcId w).2 = t ∧ t.isPlayer = true := by
  constructor
  · exact raceFirst_eq_head _ _ _ h
  · have ht : t ∈ (order.map (strategyResult e1 e2 e3 pcId w)).filterMap id := by
      rw [h]
      exact List.mem_cons_self _ _
    rw [List.mem_filterMap] at ht
    obtain ⟨o, ho, hid⟩ := ht
    rw [List.mem_map] at ho
    obtain ⟨i, hi, rfl⟩ := ho
    exact strategyResult_player e1 e2 e3 pcId w i t hid

/-- Witness for C5: the default-ALSA probe succeeds, the other two fail, and
acquisition returns exactly that probe's (non-silence) player track. -/
theorem acquire_first_nonempty_wins_witness :
    (get_audio_track (Except.ok "alsa-default") (Except.error (PyErr.exc "dev"))
      { popenOk := false, createTaskRaises := true, mediaPlayerOk := false }
      [0, 1, 2] 0 worldOnePC).2 = Track.player "alsa-default" ∧
    (Track.player "alsa-default").isPlayer = true :=
  acquire_first_nonempty_wins _ _ _ _ _ _ _ [] rfl

/-! ## Theorems: pipeline strategy structure (C2, C9) -/

/-- Counterexample to C2: a fully successful run of the pipeline strategy
spawns exactly one external process (ffmpeg capturing from `hw:2,0` and
transforming in a single step), not two; no spawned process has its input
wired to another process's output, and no parent-side file descriptor is
closed. -/
theorem try_subprocess_not_two_procs_cex :
    ¬ ((try_subprocess { popenOk := true, createTaskRaises := false, mediaPlayerOk := true }
        0 worldOnePC).1.procs.length = 2) ∧
    (try_subprocess { popenOk := true, createTaskRaises := false, mediaPlayerOk := true }
        0 worldOnePC).1.procs.length = 1 ∧
    (∀ p ∈ (try_subprocess { popenOk := true, createTaskRaises := false, mediaPlayerOk := true }
        0 worldOnePC).1.procs, p.stdinSrc = none) ∧
    (try_subprocess { popenOk := true, createTaskRaises := false, mediaPlayerOk := true }
        0 worldOnePC).1.closedFds = [] := by
  decide

/-- C2 amended: whenever the spawn succeeds, the pipeline strategy adds
exactly one process — ffmpeg running `cmd_ffmpeg`, reading the ALSA device
directly (inherited stdin, no inter-process pipe) with its stdout as the
pipe the producer reads — and closes no parent-side descriptor. -/
theorem try_subprocess_single_process (env : SubprocEnv) (pcId : Nat) (w : World)
    (h : env.popenOk = true) :
    (try_subprocess env pcId w).1.procs =
      w.procs ++ [{ pid := w.nextPid, cmd := cmd_ffmpeg, stdinSrc := none,
                    stdoutPipe := true, returncode := none, sigterms := 0 }] ∧
    (try_subprocess env pcId w).1.closedFds = w.closedFds := by
  cases hc : env.createTaskRaises <;> cases hm : env.mediaPlayerOk <;>
    simp [try_subprocess, h, hc, hm, World.updPC]

/-- Witness for the amended C2 at a concrete successful spawn. -/
theorem try_subprocess_single_process_witness :
    (try_subprocess { popenOk := true, createTaskRaises := true, mediaPlayerOk := true }
        0 worldOnePC).1.procs =
      [{ pid := 0, cmd := cmd_ffmpeg, stdinSrc := none, stdoutPipe := true,
         returncode := none, sigterms := 0 }] ∧
    (try_subprocess { popenOk := true, createTaskRaises := true, mediaPlayerOk := true }
        0 worldOnePC).1.closedFds = [] := by
  have h := try_subprocess_single_process
    { popenOk := true, createTaskRaises := true, mediaPlayerOk := true } 0 worldOnePC rfl
  simpa [worldOnePC] using h

/-- Counterexample to C9: the pipeline strategy is not a side-effect-free
probe.  Even on an attempt that yields no result (`create_task` raises, as
it always does on the executor worker thread), it has already mutated the
connection object (`pc.proc_ffmpeg` goes from absent to set) and spawned an
ffmpeg process that persists in the process table after the attempt. -/
theorem try_subprocess_side_effects_cex :
    (try_subprocess { popenOk := true, createTaskRaises := true, mediaPlayerOk := true }
        0 worldOnePC).2 = none ∧
    (try_subprocess { popenOk := true, createTaskRaises := true, mediaPlayerOk := true }
        0 worldOnePC).1 ≠ worldOnePC ∧
    ((try_subprocess { popenOk := true, createTaskRaises := true, mediaPlayerOk := true }
        0 worldOnePC).1.getPC 0).map PC.proc_ffmpeg = some (some 0) ∧
    (worldOnePC.getPC 0).map PC.proc_ffmpeg = some none ∧
    (try_subprocess { popenOk := true, createTaskRaises := true, mediaPlayerOk := true }
        0 worldOnePC).1.procs.length = 1 := by
  decide

/-- C9 amended: the two ALSA probes touch no shared state at all; the
pipeline probe, by design, stores its spawned ffmpeg process on the
connection object (`pc.proc_ffmpeg`) for later cleanup, and both that
mutation and the spawned process persist outside the attempt. -/
theorem strategy_effects_amended (e : Except PyErr String) (env : SubprocEnv)
    (pcId : Nat) (w : World) (h : env.popenOk = true) :
    (try_alsa_default e w).1 = w ∧
    (try_alsa_hw e w).1 = w ∧
    (try_subprocess env pcId w).1.conns =
      w.conns.map (fun c =>
        if c.pcId == pcId then { c with proc_ffmpeg := some w.nextPid } else c) ∧
    (try_subprocess env pcId w).1.procs =
      w.procs ++ [{ pid := w.nextPid, cmd := cmd_ffmpeg, stdinSrc := none,
                    stdoutPipe := true, returncode := none, sigterms := 0 }] := by
  refine ⟨?_, ?_, ?_, ?_⟩
  · cases e <;> rfl
  · cases e <;> rfl
  · cases hc : env.createTaskRaises <;> cases hm : env.mediaPlayerOk <;>
      simp [try_subprocess, h, hc, hm, World.updPC]
  · cases hc : env.createTaskRaises <;> cases hm : env.mediaPlayerOk <;>
      simp [try_subprocess, h, hc, hm, World.updPC]

/-- Witness for the amended C9 at a concrete input. -/
theorem strategy_effects_amended_witness :
    (try_alsa_default (Except.error (PyErr.exc "dev")) worldOnePC).1 = worldOnePC ∧
    (try_alsa_hw (Except.error (PyErr.exc "dev")) worldOnePC).1 = worldOnePC ∧
    (try_subprocess { popenOk := true, createTaskRaises := true, mediaPlayerOk := true }
        0 worldOnePC).1.conns =
      worldOnePC.conns.map (fun c =>
        if c.pcId == 0 then { c with proc_ffmpeg := some worldOnePC.nextPid } else c) ∧
    (try_subprocess { popenOk := true, createTaskRaises := true, mediaPlayerOk := true }
        0 worldOnePC).1.procs =
      worldOnePC.procs ++ [{ pid := worldOnePC.nextPid, cmd := cmd_ffmpeg, stdinSrc := none,
                             stdoutPipe := true, returncode := none, sigterms := 0 }] :=
  strategy_effects_amended (Except.error (PyErr.exc "dev"))
    { popenOk := true, createTaskRaises := true, mediaPlayerOk := true } 0 worldOnePC rfl

/-! ## Theorems: monitor loop (C3) -/

/-- A session (identity 0) whose ffmpeg process has exited with return
code 1 while the connection is still active. -/
def worldDeadFfmpeg : World :=
  { procs := [{ pid := 0, cmd := cmd_ffmpeg, stdinSrc := none, stdoutPipe := true,
                returncode := some 1, sigterms := 0 }],
    pcs := [0],
    conns := [{ pcId := 0, iceConnectionState := "connected", connectionState := "connected",
                closed := false, proc_arecord := none, proc_ffmpeg := some 0 }],
    tasks := [], closedFds := [], nextPid := 1, nextPcId := 1 }

/-- C3 (code bug): with the session's supervised ffmpeg process already
exited, the monitor-loop iteration detects the death and returns — but its
`pc.close()` is an unawaited coroutine, so the world is returned unchanged:
the session is still in the registry, the connection is still `connected`
and not closed, and no process was terminated.  Moreover the monitor task is
never even created in a real run: `asyncio.create_task` is called from the
executor worker thread, raises, and is swallowed, so `tasks` stays empty. -/
theorem monitor_dead_process_no_teardown :
    monitorStep 0 worldDeadFfmpeg = (worldDeadFfmpeg, MonitorResult.returned) ∧
    (monitorStep 0 worldDeadFfmpeg).1.pcs = [0] ∧
    ((monitorStep 0 worldDeadFfmpeg).1.getPC 0).map PC.connectionState = some "connected" ∧
    ((monitorStep 0 worldDeadFfmpeg).1.getPC 0).map PC.closed = some false ∧
    (try_subprocess { popenOk := true, createTaskRaises := true, mediaPlayerOk := true }
        0 worldOnePC).1.tasks = [] := by
  decide

/-! ## Theorems: negotiation request (C7) -/

/-- Environment for a request whose SDP text is rejected by
`setRemoteDescription`, while both ALSA probes fail and the pipeline spawn
succeeds (`create_task` still raises, as it always does on executor worker
threads). -/
def offerEnvBadSdp : OfferEnv :=
  { e1 := Except.error (PyErr.exc "alsa"), e2 := Except.error (PyErr.exc "alsa"),
    e3 := { popenOk := true, createTaskRaises := true, mediaPlayerOk := true },
    order := [0, 1, 2], sdpParses := false }

/-- Counterexample to C7: a request whose session description is invalid
(present `sdp`/`type` fields, but SDP text rejected by
`setRemoteDescription`) fails only after the session was created — the
failed request leaves the new connection in the registry and an already
spawned ffmpeg process behind. -/
theorem offer_invalid_description_creates_session_cex :
    (offer offerEnvBadSdp (Payload.fields (some "not-an-sdp") (some "offer")) emptyWorld).1 =
      OfferResult.raised (PyErr.exc "setRemoteDescription") ∧
    (offer offerEnvBadSdp (Payload.fields (some "not-an-sdp") (some "offer")) emptyWorld).2.pcs
      = [0] ∧
    (offer offerEnvBadSdp (Payload.fields (some "not-an-sdp") (some "offer"))
        emptyWorld).2.procs.length = 1 := by
  decide

/-- C7 amended: a request whose payload is not JSON, lacks the `sdp` or
`type` field, or carries a `type` outside the accepted set fails before any
session is created or process spawned — the handler raises and the world is
returned exactly as it was.  (A structurally complete payload whose SDP text
is later rejected fails only after the session is registered; see the
counterexample.) -/
theorem offer_malformed_payload_no_session (env : OfferEnv) (w : World) (p : Payload)
    (h : p = Payload.badJson ∨ (∃ t, p = Payload.fields none t) ∨
         (∃ s, p = Payload.fields (some s) none) ∨
         (∃ s t, p = Payload.fields (some s) (some t) ∧ validSdpTypes.contains t = false)) :
    ∃ e, offer env p w = (OfferResult.raised e, w) := by
  rcases h with rfl | ⟨t, rfl⟩ | ⟨s, rfl⟩ | ⟨s, t, rfl, hv⟩
  · exact ⟨_, rfl⟩
  · exact ⟨_, rfl⟩
  · exact ⟨_, rfl⟩
  · refine ⟨PyErr.exc "ValueError: RTCSessionDescription type", ?_⟩
    unfold offer
    dsimp only
    rw [hv]
    simp

/-- Witness for the amended C7: a payload missing both fields is rejected
with the registry untouched. -/
theorem offer_malformed_payload_no_session_witness :
    ∃ e, offer offerEnvBadSdp (Payload.fields none none) emptyWorld =
      (OfferResult.raised e, emptyWorld) :=
  offer_malformed_payload_no_session offerEnvBadSdp emptyWorld _
    (Or.inr (Or.inl ⟨none, rfl⟩))

/-! ## Theorems: close handler idempotence (C4) -/

lemma tw_pid (q : Proc) : (Proc.wait (Proc.terminate q)).pid = q.pid := by
  cases h : q.returncode <;> simp [Proc.terminate, Proc.wait, h]

lemma tw_rc_isSome (q : Proc) : (Proc.wait (Proc.terminate q)).returncode.isSome = true := by
  cases h : q.returncode <;> simp [Proc.terminate, Proc.wait, h]

lemma tw_of_isSome (q : Proc) (h : q.returncode.isSome = true) :
    Proc.wait (Proc.terminate q) = q := by
  cases hq : q.returncode with
  | none => rw [hq] at h; simp at h
  | some c => simp [Proc.terminate, Proc.wait, hq]

lemma tw_sigterms (q : Proc) : (Proc.wait (Proc.terminate q)).sigterms ≤ q.sigterms + 1 := by
  cases h : q.returncode <;> simp [Proc.terminate, Proc.wait, h]

lemma twf_of_isSome (a : Nat) (q : Proc) (h : q.returncode.isSome = true) : twf a q = q := by
  unfold twf
  split
  · exact tw_of_isSome q h
  · rfl

lemma twf_sigterms (a : Nat) (q : Proc) : (twf a q).sigterms ≤ q.sigterms + 1 := by
  unfold twf
  split
  · exact tw_sigterms q
  · omega

lemma twOf_of_isSome (x : Option Nat) (q : Proc) (h : q.returncode.isSome = true) :
    twOf x q = q := by
  cases x with
  | none => rfl
  | some a => exact twf_of_isSome a q h

lemma twOf_sigterms (x : Option Nat) (q : Proc) : (twOf x q).sigterms ≤ q.sigterms + 1 := by
  cases x with
  | none => exact Nat.le_succ q.sigterms
  | some a => exact twf_sigterms a q

lemma twOf_cases (x : Option Nat) (q : Proc) :
    twOf x q = q ∨ (twOf x q).returncode.isSome = true := by
  cases x with
  | none => exact Or.inl rfl
  | some a =>
    by_cases h : (q.pid == a) = true
    · have heq : twOf (some a) q = Proc.wait (Proc.terminate q) := by simp [twOf, twf, h]
      rw [heq]
      exact Or.inr (tw_rc_isSome q)
    · have heq : twOf (some a) q = q := by simp [twOf, twf, h]
      rw [heq]
      exact Or.inl rfl

lemma twOf_twOf_idem (a b : Option Nat) (q : Proc) :
    twOf b (twOf a (twOf b (twOf a q))) = twOf b (twOf a q) := by
  rcases twOf_cases a q with h1 | h1
  · rw [h1]
    rcases twOf_cases b q with h2 | h2
    · rw [h2, h1, h2]
    · rw [twOf_of_isSome a _ h2, twOf_of_isSome b _ h2]
  · have h2 : (twOf b (twOf a q)).returncode.isSome = true := by
      rcases twOf_cases b (twOf a q) with h3 | h3
      · rw [h3]; exact h1
      · exact h3
    rw [twOf_of_isSome a _ h2, twOf_of_isSome b _ h2]

lemma twOf_twOf_sigterms (a b : Option Nat) (q : Proc) :
    (twOf b (twOf a q)).sigterms ≤ q.sigterms + 1 := by
  rcases twOf_cases a q with h1 | h1
  · rw [h1]
    exact twOf_sigterms b q
  · rw [twOf_of_isSome b _ h1]
    exact twOf_sigterms a q

lemma closeFn_pcId (c : PC) : (closeFn c).pcId = c.pcId := rfl

lemma closeFn_idem (c : PC) : closeFn (closeFn c) = closeFn c := rfl

lemma find?_some_pcId {w : World} {pcId : Nat} {pc : PC} (h : w.getPC pcId = some pc) :
    (pc.pcId == pcId) = true := by
  have h' : w.conns.find? (fun c => c.pcId == pcId) = some pc := h
  have h2 := List.find?_some h'
  exact h2

/-- Characterization of the close handler's terminal branch, component by
component: terminate/wait both process attributes pointwise in the process
table, close the connection object, and drop the id from the registry. -/
lemma on_ice_terminal_eq (pcId : Nat) (w : World) (pc : PC)
    (hpc : w.getPC pcId = some pc)
    (hterm : (pc.iceConnectionState == "failed" || pc.iceConnectionState == "closed") = true) :
    on_ice_state_change pcId w =
      { procs := w.procs.map (fun q => twOf pc.proc_ffmpeg (twOf pc.proc_arecord q)),
        pcs := w.pcs.filter (fun i => !(i == pcId)),
        conns := w.conns.map (fun c => if c.pcId == pcId then closeFn c else c),
        tasks := w.tasks, closedFds := w.closedFds,
        nextPid := w.nextPid, nextPcId := w.nextPcId } := by
  unfold on_ice_state_change
  rw [hpc]
  dsimp only
  rw [if_pos hterm]
  cases hA : pc.proc_arecord <;> cases hB : pc.proc_ffmpeg <;>
    simp [World.termWait, await_pc_close, World.updPC, twOf, List.map_map, Function.comp]

lemma on_ice_noPC (pcId : Nat) (w : World) (hpc : w.getPC pcId = none) :
    on_ice_state_change pcId w = w := by
  unfold on_ice_state_change
  rw [hpc]

lemma on_ice_nonterminal (pcId : Nat) (w : World) (pc : PC)
    (hpc : w.getPC pcId = some pc)
    (hterm : (pc.iceConnectionState == "failed" || pc.iceConnectionState == "closed") = false) :
    on_ice_state_change pcId w = w := by
  unfold on_ice_state_change
  rw [hpc]
  dsimp only
  rw [if_neg]
  simp [hterm]

lemma getPC_on_ice_terminal (pcId : Nat) (w : World) (pc : PC)
    (hpc : w.getPC pcId = some pc)
    (hterm : (pc.iceConnectionState == "failed" || pc.iceConnectionState == "closed") = true) :
    (on_ice_state_change pcId w).getPC pcId = some (closeFn pc) := by
  rw [on_ice_terminal_eq pcId w pc hpc hterm]
  unfold World.getPC
  dsimp only
  rw [List.find?_map]
  have hpg : ((fun c : PC => c.pcId == pcId) ∘
      (fun c : PC => if c.pcId == pcId then closeFn c else c)) =
      (fun c : PC => c.pcId == pcId) := by
    funext c
    by_cases h : (c.pcId == pcId) = true
    · simp [Function.comp, h, closeFn_pcId]
    · simp [Function.comp, h]
  rw [hpg]
  have hfind : w.conns.find? (fun c => c.pcId == pcId) = some pc := hpc
  rw [hfind]
  have hmatch : (pc.pcId == pcId) = true := find?_some_pcId hpc
  show some (if (pc.pcId == pcId) = true then closeFn pc else pc) = some (closeFn pc)
  rw [if_pos hmatch]

lemma filter_pcs_idem (l : List Nat) (p : Nat → Bool) : (l.filter p).filter p = l.filter p := by
  rw [List.filter_filter]
  congr 1
  funext a
  exact Bool.and_self (p a)

/-- C4: the close/teardown handler is idempotent — running
`on_ice_state_change` a second time on the same connection produces a world
identical to running it once (the registry discard, the connection close and
both terminate/wait pairs are all absorbed, because a reaped process's
`terminate` delivers no signal) — and across the two invocations every
process in the world receives at most one termination signal. -/
theorem on_ice_close_idempotent (pcId : Nat) (w : World) :
    on_ice_state_change pcId (on_ice_state_change pcId w) = on_ice_state_change pcId w ∧
    List.Forall₂ (fun q r => r.sigterms ≤ q.sigterms + 1) w.procs
      (on_ice_state_change pcId (on_ice_state_change pcId w)).procs := by
  cases hpc : w.getPC pcId with
  | none =>
    have h1 : on_ice_state_change pcId w = w := on_ice_noPC pcId w hpc
    constructor
    · rw [h1, h1]
    · rw [h1, h1]
      rw [List.forall₂_same]
      intro q _
      omega
  | some pc =>
    by_cases hterm :
        (pc.iceConnectionState == "failed" || pc.iceConnectionState == "closed") = true
    · have h1 := on_ice_terminal_eq pcId w pc hpc hterm
      have hg := getPC_on_ice_terminal pcId w pc hpc hterm
      have htermC : ((closeFn pc).iceConnectionState == "failed" ||
          (closeFn pc).iceConnectionState == "closed") = true := by
        simp [closeFn]
      have h2 := on_ice_terminal_eq pcId (on_ice_state_change pcId w) (closeFn pc) hg htermC
      have hcompP : ((fun q => twOf (closeFn pc).proc_ffmpeg (twOf (closeFn pc).proc_arecord q)) ∘
          (fun q => twOf pc.proc_ffmpeg (twOf pc.proc_arecord q))) =
          (fun q => twOf pc.proc_ffmpeg (twOf pc.proc_arecord q)) := by
        funext q
        exact twOf_twOf_idem pc.proc_arecord pc.proc_ffmpeg q
      have hcompC : ((fun c : PC => if c.pcId == pcId then closeFn c else c) ∘
          (fun c : PC => if c.pcId == pcId then closeFn c else c)) =
          (fun c : PC => if c.pcId == pcId then closeFn c else c) := by
        funext c
        by_cases h : (c.pcId == pcId) = true
        · simp [Function.comp, h, closeFn_pcId, closeFn_idem]
        · simp [Function.comp, h]
      have hidem : on_ice_state_change pcId (on_ice_state_change pcId w) =
          on_ice_state_change pcId w := by
        rw [h2, h1]
        dsimp only
        rw [List.map_map, List.map_map, hcompP, hcompC, filter_pcs_idem]
      refine ⟨hidem, ?_⟩
      rw [hidem, h1]
      dsimp only
      rw [List.forall₂_map_right_iff, List.forall₂_same]
      intro q _
      exact twOf_twOf_sigterms pc.proc_arecord pc.proc_ffmpeg q
    · have hf : (pc.iceConnectionState == "failed" ||
          pc.iceConnectionState == "closed") = false := by
        simpa using hterm
      have h1 : on_ice_state_change pcId w = w := on_ice_nonterminal pcId w pc hpc hf
      constructor
      · rw [h1, h1]
      · rw [h1, h1]
        rw [List.forall₂_same]
        intro q _
        omega

end AudioServer
